import Mathlib

/-!
Shallow embedding of the QUIC TCP/CUBIC congestion-window controller
(`src/net/quic/congestion_control/tcp_cubic_sender_packets.cc`,
class `TcpCubicSenderPackets`).

Machine integers (`QuicPacketCount`, `QuicByteCount`, `QuicPacketNumber`,
all `uint64_t`) are modelled as `Nat`.  The only arithmetic operation in
the translated code that can underflow a `uint64_t` is the decrement
`congestion_window_ - 1`; it is modelled by `usub64`, which agrees with
C++ unsigned subtraction on all in-range (`< 2^64`) operands.

External collaborators (the CUBIC curve `cubic_`, the PRR pacer `prr_`,
the RTT provider, and the base class `TcpCubicSenderBase`, none of which
are part of the translated source file) are abstracted:
the CUBIC window transforms and the float-valued Reno backoff
`congestion_window_ * RenoBeta()` become function parameters, the
cwnd-limited test `IsCwndLimited(bytes_in_flight)` becomes a boolean
parameter, and the base-class fields that the translated file reads and
writes become fields of the state structure.
-/

namespace TcpCubicSenderPackets

/-- `kDefaultMinimumCongestionWindow` (tcp_cubic_sender_packets.cc line 26):
the minimum cwnd based on RFC 3782, 2 packets. -/
def kDefaultMinimumCongestionWindow : Nat := 2

/-- Modelled from the spec: the fixed maximum segment size constant
`kDefaultTCPMSS` governing all packet/byte conversions (defined outside
the translated file; 1460 bytes in the surrounding codebase). -/
def kDefaultTCPMSS : Nat := 1460

/-- Modelled from the spec: the absolute maximum window used as clamp
ceiling by `SetCongestionWindowFromBandwidthAndRtt` (`kMaxCongestionWindow`,
defined outside the translated file). -/
def kMaxCongestionWindow : Nat := 200

/-- Modelled from the spec: the resumption floor used as clamp floor by
`SetCongestionWindowFromBandwidthAndRtt`
(`kMinCongestionWindowForBandwidthResumption`, defined outside the
translated file). -/
def kMinCongestionWindowForBandwidthResumption : Nat := 10

/-- `uint64_t` subtraction: agrees with C++ unsigned subtraction whenever
both operands are below `2 ^ 64` (wrap-around on underflow). -/
def usub64 (a b : Nat) : Nat :=
  if a < b then a + 2 ^ 64 - b else a - b

/-- The statistics counters of `QuicConnectionStats` touched by
`TcpCubicSenderPackets::OnPacketLost` (write-only telemetry). -/
structure Stats where
  slowstart_packets_lost : Nat
  slowstart_bytes_lost : Nat
  tcp_loss_events : Nat
deriving Repr, DecidableEq

/-- The controller state: the fields of `TcpCubicSenderPackets` together
with the fields of its base class `TcpCubicSenderBase` that the
translated source file reads or writes.  The base-class fields are
modelled from the spec (section 3, CongestionState), since the base
class is outside the translated file. -/
structure Sender where
  congestion_window : Nat
  congestion_window_count : Nat
  min_congestion_window : Nat
  slowstart_threshold : Nat
  max_tcp_congestion_window : Nat
  initial_tcp_congestion_window : Nat
  initial_max_tcp_congestion_window : Nat
  reno : Bool
  num_connections : Nat
  largest_sent_packet_number : Nat
  largest_sent_at_last_cutback : Nat
  last_cutback_exited_slowstart : Bool
  slow_start_large_reduction : Bool
  stats : Stats
deriving Repr, DecidableEq

/-- The constructor `TcpCubicSenderPackets::TcpCubicSenderPackets`
(lines 29-44): initial window and maximum window are caller-supplied,
the minimum window defaults to 2, the threshold starts at the maximum
window, and the initial snapshots record the construction arguments.
The base-class fields start from their spec-described defaults
(sequence numbers 0, flags off, one connection, zeroed statistics). -/
def mkSender (reno : Bool)
    (initial_tcp_congestion_window max_tcp_congestion_window : Nat) : Sender :=
  { congestion_window := initial_tcp_congestion_window
    congestion_window_count := 0
    min_congestion_window := kDefaultMinimumCongestionWindow
    slowstart_threshold := max_tcp_congestion_window
    max_tcp_congestion_window := max_tcp_congestion_window
    initial_tcp_congestion_window := initial_tcp_congestion_window
    initial_max_tcp_congestion_window := max_tcp_congestion_window
    reno := reno
    num_connections := 1
    largest_sent_packet_number := 0
    largest_sent_at_last_cutback := 0
    last_cutback_exited_slowstart := false
    slow_start_large_reduction := false
    stats := ⟨0, 0, 0⟩ }

/-- Modelled from the spec: `TcpCubicSenderBase::InSlowStart` (base class,
outside the translated file): slow start holds exactly when
`congestion_window < slowstart_threshold` (spec section 4.1, state
machine). -/
def inSlowStart (s : Sender) : Bool :=
  decide (s.congestion_window < s.slowstart_threshold)

/-- `TcpCubicSenderPackets::OnPacketLost` (lines 82-142).

Abstracted collaborator results:
`byte_conservation` is the global flag `FLAGS_quic_sslr_byte_conservation`;
`renoBackoff w` is the float computation `w * RenoBeta()` truncated to a
packet count; `cubicAfterLoss w` is
`cubic_.CongestionWindowAfterPacketLoss(w)`.  The call
`prr_.OnPacketLost(bytes_in_flight)` mutates only the external pacer, so
`bytes_in_flight` does not appear in the state transition. -/
def onPacketLost (byte_conservation : Bool)
    (renoBackoff cubicAfterLoss : Nat → Nat)
    (packet_number lost_bytes : Nat) (s : Sender) : Sender :=
  if packet_number ≤ s.largest_sent_at_last_cutback then
    if s.last_cutback_exited_slowstart then
      let stats1 : Stats :=
        { s.stats with
          slowstart_packets_lost := s.stats.slowstart_packets_lost + 1
          slowstart_bytes_lost := s.stats.slowstart_bytes_lost + lost_bytes }
      if s.slow_start_large_reduction then
        if byte_conservation then
          if stats1.slowstart_packets_lost = 1 ∨
              stats1.slowstart_bytes_lost / kDefaultTCPMSS >
                (stats1.slowstart_bytes_lost - lost_bytes) / kDefaultTCPMSS then
            let cw := max (usub64 s.congestion_window 1) s.min_congestion_window
            { s with stats := stats1, congestion_window := cw,
                     slowstart_threshold := cw }
          else
            { s with stats := stats1,
                     slowstart_threshold := s.congestion_window }
        else
          let cw := max (usub64 s.congestion_window 1) s.min_congestion_window
          { s with stats := stats1, congestion_window := cw,
                   slowstart_threshold := cw }
      else
        { s with stats := stats1 }
    else
      s
  else
    let stats1 : Stats :=
      { s.stats with tcp_loss_events := s.stats.tcp_loss_events + 1 }
    let stats2 : Stats :=
      if inSlowStart s then
        { stats1 with
          slowstart_packets_lost := stats1.slowstart_packets_lost + 1 }
      else stats1
    let cw1 :=
      if s.slow_start_large_reduction && inSlowStart s then
        usub64 s.congestion_window 1
      else if s.reno then
        renoBackoff s.congestion_window
      else
        cubicAfterLoss s.congestion_window
    let cw2 := if cw1 < s.min_congestion_window then s.min_congestion_window else cw1
    { s with
      stats := stats2
      last_cutback_exited_slowstart := inSlowStart s
      congestion_window := cw2
      slowstart_threshold := cw2
      largest_sent_at_last_cutback := s.largest_sent_packet_number
      congestion_window_count := 0 }

/-- `TcpCubicSenderPackets::MaybeIncreaseCwnd` (lines 154-196).

Abstracted collaborator results: `isCwndLimited` is the outcome of the
base-class test `IsCwndLimited(bytes_in_flight)`; `cubicAfterAck w` is
`cubic_.CongestionWindowAfterAck(w, rtt_stats_->min_rtt())`.  The
application-limited branch only notifies the external CUBIC curve, and
`acked_packet_number` is unused by the source body. -/
def maybeIncreaseCwnd (isCwndLimited : Bool) (cubicAfterAck : Nat → Nat)
    (s : Sender) : Sender :=
  if !isCwndLimited then
    s
  else if s.congestion_window ≥ s.max_tcp_congestion_window then
    s
  else if inSlowStart s then
    { s with congestion_window := s.congestion_window + 1 }
  else if s.reno then
    if (s.congestion_window_count + 1) * s.num_connections ≥
        s.congestion_window then
      { s with congestion_window := s.congestion_window + 1,
               congestion_window_count := 0 }
    else
      { s with congestion_window_count := s.congestion_window_count + 1 }
  else
    { s with congestion_window :=
        (min s.max_tcp_congestion_window (cubicAfterAck s.congestion_window)) }

/-- `TcpCubicSenderPackets::HandleRetransmissionTimeout` (lines 198-202).
`cubic_.Reset()` touches only the external curve state. -/
def handleRetransmissionTimeout (s : Sender) : Sender :=
  { s with slowstart_threshold := s.congestion_window / 2,
           congestion_window := s.min_congestion_window }

/-- `TcpCubicSenderPackets::OnConnectionMigration` (lines 204-211).
`TcpCubicSenderBase::OnConnectionMigration()` and `cubic_.Reset()` are
base-level / external bookkeeping, out of scope per the spec. -/
def onConnectionMigration (s : Sender) : Sender :=
  { s with congestion_window_count := 0,
           congestion_window := s.initial_tcp_congestion_window,
           slowstart_threshold := s.initial_max_tcp_congestion_window,
           max_tcp_congestion_window := s.initial_max_tcp_congestion_window }

/-- `TcpCubicSenderPackets::SetCongestionWindowFromBandwidthAndRtt`
(lines 48-56): `new_congestion_window` is the externally computed
`bandwidth.ToBytesPerPeriod(rtt) / kDefaultTCPMSS`. -/
def setCongestionWindowFromBandwidthAndRtt (new_congestion_window : Nat)
    (s : Sender) : Sender :=
  { s with congestion_window :=
      (max (min new_congestion_window kMaxCongestionWindow)
        kMinCongestionWindowForBandwidthResumption) }

/-- `TcpCubicSenderPackets::SetCongestionWindowInPackets` (lines 58-61). -/
def setCongestionWindowInPackets (congestion_window : Nat)
    (s : Sender) : Sender :=
  { s with congestion_window := congestion_window }

/-- `TcpCubicSenderPackets::SetMinCongestionWindowInPackets` (lines 63-66). -/
def setMinCongestionWindowInPackets (congestion_window : Nat)
    (s : Sender) : Sender :=
  { s with min_congestion_window := congestion_window }

/-- `TcpCubicSenderPackets::SetMaxCongestionWindow` (lines 73-76): the
argument is a byte count, converted to packets. -/
def setMaxCongestionWindow (max_congestion_window : Nat)
    (s : Sender) : Sender :=
  { s with max_tcp_congestion_window := max_congestion_window / kDefaultTCPMSS }

/-- `TcpCubicSenderPackets::ExitSlowstart` (lines 78-80). -/
def exitSlowstart (s : Sender) : Sender :=
  { s with slowstart_threshold := s.congestion_window }

/-- The window invariant stated by the spec (section 3):
`min_congestion_window ≤ congestion_window ≤ max_congestion_window`. -/
def cwndInvariant (s : Sender) : Prop :=
  s.min_congestion_window ≤ s.congestion_window ∧
    s.congestion_window ≤ s.max_tcp_congestion_window

instance (s : Sender) : Decidable (cwndInvariant s) := by
  unfold cwndInvariant; infer_instance

/-- Iterated acknowledgment delivery: `n` cwnd-limited calls to
`MaybeIncreaseCwnd`. -/
def ackTimes (cubicAfterAck : Nat → Nat) : Nat → Sender → Sender
  | 0, s => s
  | n + 1, s => ackTimes cubicAfterAck n (maybeIncreaseCwnd true cubicAfterAck s)

/-- A concrete state after a slow-start cutback with large reduction
enabled: window 10, threshold 20, last cutback at packet 5. -/
def stC1 : Sender :=
  { mkSender true 10 100 with
    largest_sent_at_last_cutback := 5
    last_cutback_exited_slowstart := true
    slow_start_large_reduction := true
    congestion_window := 10
    slowstart_threshold := 20 }

/-- A concrete state after a slow-start cutback with large reduction
disabled: window 10, threshold 20, last cutback at packet 5. -/
def stC1w : Sender :=
  { mkSender true 10 100 with
    largest_sent_at_last_cutback := 5
    last_cutback_exited_slowstart := true
    slow_start_large_reduction := false
    congestion_window := 10
    slowstart_threshold := 20 }

/-- A concrete state with an earlier cutback at packet 5 and the largest
sent packet at 9. -/
def stC2 : Sender :=
  { mkSender true 20 100 with
    largest_sent_at_last_cutback := 5
    largest_sent_packet_number := 9
    slowstart_threshold := 15 }

/-- A freshly constructed Reno sender: window 10, maximum 100,
minimum 2; the window invariant holds. -/
def stC3 : Sender := mkSender true 10 100

/-- A concrete state with window 4 and minimum window 2. -/
def stC4c : Sender := { mkSender true 4 100 with congestion_window := 4 }

/-- A concrete state with window 30 and minimum window 2. -/
def stC4w : Sender := { mkSender true 30 100 with congestion_window := 30 }

/-- A Reno sender in congestion avoidance: window 20, threshold 20,
one emulated connection, growth accumulator empty. -/
def stC7 : Sender := { mkSender true 20 100 with slowstart_threshold := 20 }

/-- A sender in slow start: window 10, threshold 100. -/
def stC8 : Sender := mkSender true 10 100

/-- A sender whose window has reached the maximum window (100). -/
def stC9 : Sender := { mkSender true 10 100 with congestion_window := 100 }

/-- A concrete state after a slow-start cutback with large reduction
enabled and a zero window above a zero minimum window (reachable through
`setCongestionWindowInPackets` and `setMinCongestionWindowInPackets`). -/
def stC10c : Sender :=
  { mkSender true 10 100 with
    largest_sent_at_last_cutback := 5
    last_cutback_exited_slowstart := true
    slow_start_large_reduction := true
    congestion_window := 0
    min_congestion_window := 0 }

/-- A concrete state after a slow-start cutback with large reduction
enabled and a positive window: window 10, minimum 2, last cutback at
packet 5. -/
def stC10w : Sender :=
  { mkSender true 10 100 with
    largest_sent_at_last_cutback := 5
    last_cutback_exited_slowstart := true
    slow_start_large_reduction := true
    congestion_window := 10
    slowstart_threshold := 20 }

/-- Helper: the floor clamp `if a < m then m else a` is at least `m`. -/
theorem le_clampFloor (a m : Nat) : m ≤ if a < m then m else a := by
  split <;> omega

/-- Claim C1, counterexample: a loss with `packet_number ≤
largest_sent_at_last_cutback` delivered to a state where the last
cutback exited slow start and large reduction is enabled does change
`congestion_window` and `slowstart_threshold` (window 10 becomes 9,
threshold 20 becomes 9), contradicting the claim that such losses leave
both unchanged for every controller state. -/
theorem onPacketLost_dedup_changes_window_cex :
    (onPacketLost false (fun w => w * 7 / 10) (fun w => w) 3 100
        stC1).congestion_window ≠ stC1.congestion_window ∧
    (onPacketLost false (fun w => w * 7 / 10) (fun w => w) 3 100
        stC1).slowstart_threshold ≠ stC1.slowstart_threshold := by
  constructor <;> decide

/-- Claim C1, amended: a loss with `packet_number ≤
largest_sent_at_last_cutback` leaves `congestion_window` and
`slowstart_threshold` unchanged — indeed everything except the
statistics counters unchanged — provided the state does not combine
`last_cutback_exited_slowstart = true` with
`slow_start_large_reduction = true`. -/
theorem onPacketLost_dedup_no_window_change (bc : Bool)
    (rb cl : Nat → Nat) (pn lb : Nat) (s : Sender)
    (hdedup : pn ≤ s.largest_sent_at_last_cutback)
    (hnot : ¬(s.last_cutback_exited_slowstart = true ∧
        s.slow_start_large_reduction = true)) :
    (onPacketLost bc rb cl pn lb s).congestion_window =
        s.congestion_window ∧
    (onPacketLost bc rb cl pn lb s).slowstart_threshold =
        s.slowstart_threshold ∧
    onPacketLost bc rb cl pn lb s =
      { s with stats := (onPacketLost bc rb cl pn lb s).stats } := by
  obtain ⟨cw, cnt, mn, sst, mx, icw, imx, rn, nc, lsp, lsc, lces, sslr, st⟩ := s
  simp only at hdedup hnot
  cases lces with
  | false => simp [onPacketLost, hdedup]
  | true =>
    have hsslr : sslr = false := by
      cases sslr
      · rfl
      · exact absurd ⟨rfl, rfl⟩ hnot
    subst hsslr
    simp [onPacketLost, hdedup]

/-- Claim C1, witness: instantiating the amended theorem at a concrete
deduplicated loss (packet 3, last cutback at packet 5, large reduction
disabled). -/
theorem onPacketLost_dedup_no_window_change_witness :
    ((3 ≤ stC1w.largest_sent_at_last_cutback) ∧
      ¬(stC1w.last_cutback_exited_slowstart = true ∧
        stC1w.slow_start_large_reduction = true)) ∧
    ((onPacketLost false (fun w => w) (fun w => w) 3 100
          stC1w).congestion_window = stC1w.congestion_window ∧
      (onPacketLost false (fun w => w) (fun w => w) 3 100
          stC1w).slowstart_threshold = stC1w.slowstart_threshold ∧
      onPacketLost false (fun w => w) (fun w => w) 3 100 stC1w =
        { stC1w with stats := (onPacketLost false (fun w => w)
            (fun w => w) 3 100 stC1w).stats }) :=
  ⟨⟨by decide, by decide⟩,
    onPacketLost_dedup_no_window_change false (fun w => w) (fun w => w)
      3 100 stC1w (by decide) (by decide)⟩

/-- Claim C2: after a non-deduplicated loss (`packet_number >
largest_sent_at_last_cutback`), the threshold equals the new window, the
new window is at least the minimum window, the cutback marker equals the
pre-call `largest_sent_packet_number`, and the Reno growth accumulator
is zero — in every mode and for every backoff result. -/
theorem onPacketLost_cutback_postconditions (bc : Bool)
    (rb cl : Nat → Nat) (pn lb : Nat) (s : Sender)
    (h : s.largest_sent_at_last_cutback < pn) :
    (onPacketLost bc rb cl pn lb s).slowstart_threshold =
        (onPacketLost bc rb cl pn lb s).congestion_window ∧
    s.min_congestion_window ≤
        (onPacketLost bc rb cl pn lb s).congestion_window ∧
    (onPacketLost bc rb cl pn lb s).largest_sent_at_last_cutback =
        s.largest_sent_packet_number ∧
    (onPacketLost bc rb cl pn lb s).congestion_window_count = 0 := by
  have hn : ¬ pn ≤ s.largest_sent_at_last_cutback := not_le.mpr h
  unfold onPacketLost
  rw [if_neg hn]
  exact ⟨rfl, le_clampFloor _ _, rfl, rfl⟩

/-- Claim C2, witness: instantiating the theorem at a concrete
non-deduplicated loss (packet 8, last cutback at packet 5). -/
theorem onPacketLost_cutback_postconditions_witness :
    (stC2.largest_sent_at_last_cutback < 8) ∧
    ((onPacketLost false (fun w => w * 7 / 10) (fun w => w) 8 100
          stC2).slowstart_threshold =
        (onPacketLost false (fun w => w * 7 / 10) (fun w => w) 8 100
          stC2).congestion_window ∧
      stC2.min_congestion_window ≤
        (onPacketLost false (fun w => w * 7 / 10) (fun w => w) 8 100
          stC2).congestion_window ∧
      (onPacketLost false (fun w => w * 7 / 10) (fun w => w) 8 100
          stC2).largest_sent_at_last_cutback =
        stC2.largest_sent_packet_number ∧
      (onPacketLost false (fun w => w * 7 / 10) (fun w => w) 8 100
          stC2).congestion_window_count = 0) :=
  ⟨by decide,
    onPacketLost_cutback_postconditions false (fun w => w * 7 / 10)
      (fun w => w) 8 100 stC2 (by decide)⟩

/-- Claim C3, counterexample: the window invariant
`min_congestion_window ≤ congestion_window ≤ max_congestion_window` is
not preserved by the configuration setters:
`setCongestionWindowInPackets 0` on a freshly constructed sender
(minimum window 2) writes the window unclamped, breaking the invariant. -/
theorem cwndInvariant_not_preserved_cex :
    cwndInvariant stC3 ∧
      ¬ cwndInvariant (setCongestionWindowInPackets 0 stC3) := by
  constructor <;> decide

/-- Claim C3, amended: the configuration setters do not enforce the
window invariant (`SetCongestionWindowInPackets` writes the window
unclamped); among the event operations and from any state satisfying the
invariant, `HandleRetransmissionTimeout` preserves the full invariant,
`OnPacketLost` preserves the lower bound
`min_congestion_window ≤ congestion_window`, and `MaybeIncreaseCwnd`
preserves the upper bound
`congestion_window ≤ max_congestion_window`. -/
theorem cwndInvariant_partial_preservation (s : Sender)
    (h : cwndInvariant s) (bc : Bool) (rb cl : Nat → Nat) (pn lb : Nat)
    (lim : Bool) (ca : Nat → Nat) :
    cwndInvariant (handleRetransmissionTimeout s) ∧
    (onPacketLost bc rb cl pn lb s).min_congestion_window ≤
        (onPacketLost bc rb cl pn lb s).congestion_window ∧
    (maybeIncreaseCwnd lim ca s).congestion_window ≤
        (maybeIncreaseCwnd lim ca s).max_tcp_congestion_window := by
  obtain ⟨h1, h2⟩ := h
  refine ⟨⟨le_refl _, h1.trans h2⟩, ?_, ?_⟩
  · unfold onPacketLost
    dsimp only
    split
    · split
      · split
        · split
          · split
            · exact Nat.le_max_right _ _
            · exact h1
          · exact Nat.le_max_right _ _
        · exact h1
      · exact h1
    · exact le_clampFloor _ _
  · unfold maybeIncreaseCwnd
    split
    · exact h2
    · split
      · exact h2
      · rename_i hmax
        split
        · show s.congestion_window + 1 ≤ s.max_tcp_congestion_window
          omega
        · split
          · split
            · show s.congestion_window + 1 ≤ s.max_tcp_congestion_window
              omega
            · exact h2
          · exact Nat.min_le_left _ _

/-- Claim C3, witness: instantiating the amended theorem at a freshly
constructed sender. -/
theorem cwndInvariant_partial_preservation_witness :
    cwndInvariant stC3 ∧
    (cwndInvariant (handleRetransmissionTimeout stC3) ∧
      (onPacketLost false (fun w => w) (fun w => w) 4 100
          stC3).min_congestion_window ≤
        (onPacketLost false (fun w => w) (fun w => w) 4 100
          stC3).congestion_window ∧
      (maybeIncreaseCwnd true (fun w => w)
          stC3).congestion_window ≤
        (maybeIncreaseCwnd true (fun w => w)
          stC3).max_tcp_congestion_window) :=
  ⟨by decide,
    cwndInvariant_partial_preservation stC3 (by decide) false
      (fun w => w) (fun w => w) 4 100 true (fun w => w)⟩

/-- Claim C4, counterexample: with pre-call window 4 and minimum window
2, `HandleRetransmissionTimeout` yields window 2 and threshold 2, so the
post-state is not in slow start — the claim fails for this pre-call
value. -/
theorem handleRetransmissionTimeout_not_slowstart_cex :
    inSlowStart (handleRetransmissionTimeout stC4c) = false := by
  decide

/-- Claim C4, amended: immediately after `HandleRetransmissionTimeout`
the controller is in slow start (`congestion_window <
slowstart_threshold`) provided `min_congestion_window < ⌊pre-call
congestion_window / 2⌋`. -/
theorem handleRetransmissionTimeout_slowstart (s : Sender)
    (h : s.min_congestion_window < s.congestion_window / 2) :
    inSlowStart (handleRetransmissionTimeout s) = true := by
  simpa [inSlowStart, handleRetransmissionTimeout] using h

/-- Claim C4, witness: instantiating the amended theorem at window 30,
minimum window 2. -/
theorem handleRetransmissionTimeout_slowstart_witness :
    (stC4w.min_congestion_window < stC4w.congestion_window / 2) ∧
    inSlowStart (handleRetransmissionTimeout stC4w) = true :=
  ⟨by decide, handleRetransmissionTimeout_slowstart stC4w (by decide)⟩

/-- Claim C5: for every controller state,
`HandleRetransmissionTimeout` sets `congestion_window` to
`min_congestion_window` and `slowstart_threshold` to the floor of the
pre-call `congestion_window` divided by 2. -/
theorem handleRetransmissionTimeout_sets_window (s : Sender) :
    (handleRetransmissionTimeout s).congestion_window =
        s.min_congestion_window ∧
    (handleRetransmissionTimeout s).slowstart_threshold =
        s.congestion_window / 2 :=
  ⟨rfl, rfl⟩

/-- Claim C6: the constructor snapshots its arguments in the
`initial_*` fields, every operation leaves those snapshots unchanged,
and `OnConnectionMigration` sets `congestion_window` to the
construction-time initial window, `max_tcp_congestion_window` and
`slowstart_threshold` to the construction-time maximum window, and
`congestion_window_count` to zero. -/
theorem onConnectionMigration_restores_initial :
    (∀ (r : Bool) (icw mcw : Nat),
      (mkSender r icw mcw).initial_tcp_congestion_window = icw ∧
      (mkSender r icw mcw).initial_max_tcp_congestion_window = mcw) ∧
    (∀ s : Sender,
      (onConnectionMigration s).congestion_window =
          s.initial_tcp_congestion_window ∧
      (onConnectionMigration s).max_tcp_congestion_window =
          s.initial_max_tcp_congestion_window ∧
      (onConnectionMigration s).slowstart_threshold =
          s.initial_max_tcp_congestion_window ∧
      (onConnectionMigration s).congestion_window_count = 0) ∧
    (∀ (bc : Bool) (rb cl : Nat → Nat) (pn lb : Nat) (s : Sender),
      (onPacketLost bc rb cl pn lb s).initial_tcp_congestion_window =
          s.initial_tcp_congestion_window ∧
      (onPacketLost bc rb cl pn lb s).initial_max_tcp_congestion_window =
          s.initial_max_tcp_congestion_window) ∧
    (∀ (lim : Bool) (ca : Nat → Nat) (s : Sender),
      (maybeIncreaseCwnd lim ca s).initial_tcp_congestion_window =
          s.initial_tcp_congestion_window ∧
      (maybeIncreaseCwnd lim ca s).initial_max_tcp_congestion_window =
          s.initial_max_tcp_congestion_window) ∧
    (∀ s : Sender,
      (handleRetransmissionTimeout s).initial_tcp_congestion_window =
          s.initial_tcp_congestion_window ∧
      (handleRetransmissionTimeout s).initial_max_tcp_congestion_window =
          s.initial_max_tcp_congestion_window ∧
      (onConnectionMigration s).initial_tcp_congestion_window =
          s.initial_tcp_congestion_window ∧
      (onConnectionMigration s).initial_max_tcp_congestion_window =
          s.initial_max_tcp_congestion_window ∧
      (exitSlowstart s).initial_tcp_congestion_window =
          s.initial_tcp_congestion_window ∧
      (exitSlowstart s).initial_max_tcp_congestion_window =
          s.initial_max_tcp_congestion_window) ∧
    (∀ (n : Nat) (s : Sender),
      (setCongestionWindowInPackets n s).initial_tcp_congestion_window =
          s.initial_tcp_congestion_window ∧
      (setCongestionWindowInPackets n s).initial_max_tcp_congestion_window =
          s.initial_max_tcp_congestion_window ∧
      (setMinCongestionWindowInPackets n s).initial_tcp_congestion_window =
          s.initial_tcp_congestion_window ∧
      (setMinCongestionWindowInPackets n s).initial_max_tcp_congestion_window =
          s.initial_max_tcp_congestion_window ∧
      (setMaxCongestionWindow n s).initial_tcp_congestion_window =
          s.initial_tcp_congestion_window ∧
      (setMaxCongestionWindow n s).initial_max_tcp_congestion_window =
          s.initial_max_tcp_congestion_window ∧
      (setCongestionWindowFromBandwidthAndRtt n s).initial_tcp_congestion_window =
          s.initial_tcp_congestion_window ∧
      (setCongestionWindowFromBandwidthAndRtt n s).initial_max_tcp_congestion_window =
          s.initial_max_tcp_congestion_window) := by
  refine ⟨fun r icw mcw => ⟨rfl, rfl⟩,
    fun s => ⟨rfl, rfl, rfl, rfl⟩, ?_, ?_,
    fun s => ⟨rfl, rfl, rfl, rfl, rfl, rfl⟩,
    fun n s => ⟨rfl, rfl, rfl, rfl, rfl, rfl, rfl, rfl⟩⟩
  · intro bc rb cl pn lb s
    unfold onPacketLost
    dsimp only
    constructor <;> (repeat' split) <;> rfl
  · intro lim ca s
    unfold maybeIncreaseCwnd
    constructor <;> (repeat' split) <;> rfl

/-- Claim C7: a cwnd-limited acknowledgment in Reno congestion
avoidance with the window below the maximum increments the growth
accumulator; once the incremented accumulator times `num_connections`
reaches the window, the window grows by one and the accumulator resets,
otherwise the window is unchanged.  Concretely, 20 such acknowledgments
on a window of 20 with one emulated connection yield window 21. -/
theorem maybeIncreaseCwnd_reno_avoidance :
    (∀ (s : Sender) (ca : Nat → Nat),
      s.reno = true → inSlowStart s = false →
      s.congestion_window < s.max_tcp_congestion_window →
      (((s.congestion_window_count + 1) * s.num_connections ≥
            s.congestion_window →
          (maybeIncreaseCwnd true ca s).congestion_window =
              s.congestion_window + 1 ∧
          (maybeIncreaseCwnd true ca s).congestion_window_count = 0) ∧
        ((s.congestion_window_count + 1) * s.num_connections <
            s.congestion_window →
          (maybeIncreaseCwnd true ca s).congestion_window =
              s.congestion_window ∧
          (maybeIncreaseCwnd true ca s).congestion_window_count =
              s.congestion_window_count + 1))) ∧
    (ackTimes (fun w => w) 20 stC7).congestion_window = 21 := by
  constructor
  · intro s ca hreno hca hlt
    have hnmax : ¬ s.congestion_window ≥ s.max_tcp_congestion_window := by
      omega
    constructor
    · intro hcnt
      constructor <;> simp [maybeIncreaseCwnd, hreno, hca, hnmax, hcnt]
    · intro hcnt
      have hn : ¬ (s.congestion_window_count + 1) * s.num_connections ≥
          s.congestion_window := by omega
      constructor <;> simp [maybeIncreaseCwnd, hreno, hca, hnmax, hn]
  · decide

/-- Claim C7, witness: instantiating the general part at the concrete
avoidance state (window 20, accumulator 0, one connection): the first
acknowledgment leaves the window at 20 and sets the accumulator to 1. -/
theorem maybeIncreaseCwnd_reno_avoidance_witness :
    ((stC7.congestion_window_count + 1) * stC7.num_connections <
        stC7.congestion_window) ∧
    (maybeIncreaseCwnd true (fun w => w) stC7).congestion_window =
        stC7.congestion_window ∧
    (maybeIncreaseCwnd true (fun w => w) stC7).congestion_window_count =
        stC7.congestion_window_count + 1 :=
  ⟨by decide,
    (maybeIncreaseCwnd_reno_avoidance.1 stC7 (fun w => w) rfl (by decide)
        (by decide)).2 (by decide)⟩

/-- Claim C8: a cwnd-limited acknowledgment in slow start with the
window below the maximum increases the window by exactly one, in both
Reno and CUBIC mode (the mode and the CUBIC transform are arbitrary). -/
theorem maybeIncreaseCwnd_slowstart_growth (s : Sender)
    (ca : Nat → Nat) (hss : inSlowStart s = true)
    (hlt : s.congestion_window < s.max_tcp_congestion_window) :
    (maybeIncreaseCwnd true ca s).congestion_window =
        s.congestion_window + 1 := by
  have hnmax : ¬ s.congestion_window ≥ s.max_tcp_congestion_window := by
    omega
  simp [maybeIncreaseCwnd, hss, hnmax]

/-- Claim C8, witness: instantiating the theorem at a freshly
constructed sender in slow start (window 10, threshold 100). -/
theorem maybeIncreaseCwnd_slowstart_growth_witness :
    (inSlowStart stC8 = true ∧
      stC8.congestion_window < stC8.max_tcp_congestion_window) ∧
    (maybeIncreaseCwnd true (fun w => w) stC8).congestion_window =
      stC8.congestion_window + 1 :=
  ⟨⟨by decide, by decide⟩,
    maybeIncreaseCwnd_slowstart_growth stC8 (fun w => w) (by decide)
      (by decide)⟩

/-- Claim C9: once `congestion_window ≥ max_tcp_congestion_window`, a
call to `MaybeIncreaseCwnd` leaves the window unchanged, in both modes
and whatever the cwnd-limited test returned. -/
theorem maybeIncreaseCwnd_capped (s : Sender) (lim : Bool)
    (ca : Nat → Nat)
    (h : s.max_tcp_congestion_window ≤ s.congestion_window) :
    (maybeIncreaseCwnd lim ca s).congestion_window =
        s.congestion_window := by
  cases lim with
  | false => rfl
  | true => simp [maybeIncreaseCwnd, h]

/-- Claim C9, witness: instantiating the theorem at a sender whose
window (100) has reached the maximum window (100). -/
theorem maybeIncreaseCwnd_capped_witness :
    (stC9.max_tcp_congestion_window ≤ stC9.congestion_window) ∧
    (maybeIncreaseCwnd true (fun w => w) stC9).congestion_window =
      stC9.congestion_window :=
  ⟨by decide, maybeIncreaseCwnd_capped stC9 true (fun w => w) (by decide)⟩

/-- Claim C10, counterexample: in the deduplicated-loss large-reduction
path with the byte-conservation toggle disabled, the source computes the
unsigned expression `congestion_window_ - 1`; at `congestion_window = 0`
(with minimum window 0) it wraps around to `2 ^ 64 - 1` instead of
producing the one-packet decrement clamped to the minimum window. -/
theorem onPacketLost_sslr_dedup_underflow_cex :
    (onPacketLost false (fun w => w) (fun w => w) 1 50
        stC10c).congestion_window ≠
      max (stC10c.congestion_window - 1) stC10c.min_congestion_window := by
  decide

/-- Claim C10, amended: in the deduplicated-loss path with
`last_cutback_exited_slowstart` and `slow_start_large_reduction` both
set and `congestion_window ≥ 1`: with the byte-conservation toggle
disabled the window becomes exactly `max (congestion_window - 1)
min_congestion_window` regardless of `lost_bytes`, and with either
toggle value the call leaves `slowstart_threshold` equal to the
resulting `congestion_window`. -/
theorem onPacketLost_sslr_dedup (rb cl : Nat → Nat) (pn lb : Nat)
    (s : Sender) (hdedup : pn ≤ s.largest_sent_at_last_cutback)
    (hlces : s.last_cutback_exited_slowstart = true)
    (hsslr : s.slow_start_large_reduction = true)
    (hpos : 1 ≤ s.congestion_window) :
    (onPacketLost false rb cl pn lb s).congestion_window =
        max (s.congestion_window - 1) s.min_congestion_window ∧
    (∀ bc : Bool,
      (onPacketLost bc rb cl pn lb s).slowstart_threshold =
        (onPacketLost bc rb cl pn lb s).congestion_window) := by
  have hu : usub64 s.congestion_window 1 = s.congestion_window - 1 := by
    unfold usub64
    rw [if_neg (by omega)]
  constructor
  · simp [onPacketLost, hdedup, hlces, hsslr, hu]
  · intro bc
    cases bc with
    | false => simp [onPacketLost, hdedup, hlces, hsslr]
    | true =>
      simp only [onPacketLost, hdedup, hlces, hsslr, if_true, ite_true]
      split <;> rfl

/-- Claim C10, witness: instantiating the amended theorem at a concrete
deduplicated loss (packet 3, last cutback at packet 5, window 10,
minimum 2): the window becomes 9 and the threshold tracks the window. -/
theorem onPacketLost_sslr_dedup_witness :
    (3 ≤ stC10w.largest_sent_at_last_cutback ∧
      stC10w.last_cutback_exited_slowstart = true ∧
      stC10w.slow_start_large_reduction = true ∧
      1 ≤ stC10w.congestion_window) ∧
    (onPacketLost false (fun w => w) (fun w => w) 3 70
        stC10w).congestion_window =
      max (stC10w.congestion_window - 1) stC10w.min_congestion_window ∧
    (onPacketLost true (fun w => w) (fun w => w) 3 70
        stC10w).slowstart_threshold =
      (onPacketLost true (fun w => w) (fun w => w) 3 70
        stC10w).congestion_window :=
  ⟨⟨by decide, by decide, by decide, by decide⟩,
    (onPacketLost_sslr_dedup (fun w => w) (fun w => w) 3 70 stC10w
        (by decide) (by decide) (by decide) (by decide)).1,
    (onPacketLost_sslr_dedup (fun w => w) (fun w => w) 3 70 stC10w
        (by decide) (by decide) (by decide) (by decide)).2 true⟩

end TcpCubicSenderPackets
